import Mathlib

set_option autoImplicit false

/-!
Verification of the SPSS Bottles wrapper (`src/spss_win_wrapper.py`).

The development shallowly embeds the configuration-resolution,
path-translation and command-construction pipeline of the wrapper:

* `PyVal` models the dynamic values flowing through configuration
  resolution (Python/TOML values, with Python truthiness);
* `load_config_file` / `get_config` embed the configuration resolver;
* `resolve_and_validate_path`, `translate_path_to_windows`,
  `winepath_cmd` embed the path translator;
* `build_spss_command` embeds the command builder;
* `process_files` embeds the per-file loop of `main`, recording the
  external translation invocations it spawns, and `WrapperError` with
  `WrapperError.exitCode` / `renderError` embeds the failure taxonomy
  and the diagnostics printed at each failure site.

External effects (filesystem existence, subprocess execution) are
abstracted into a `Host` record of oracle functions.
-/

/-- A dynamic value as seen by the Python code: either `None` or a value
of one of the TOML scalar/collection types the config file can contain.
`tomllib.load` returns such values unchecked (the `dict[str, str]`
annotation on `load_config_file` is not enforced). -/
inductive PyVal where
  | none
  | vstr (s : String)
  | vint (n : Int)
  | vbool (b : Bool)
  | varr (vs : List PyVal)
  deriving Repr

/-- Python truthiness (`bool(v)`): `None` is falsy, a string is truthy
iff non-empty, an integer iff non-zero, a list iff non-empty. -/
def PyVal.truthy : PyVal → Bool
  | .none => false
  | .vstr s => !(s = "")
  | .vint n => !(n = 0)
  | .vbool b => b
  | .varr vs => !vs.isEmpty

/-- Whether a `PyVal` is a string (the type the `Config` dataclass
declares for all three fields). -/
def PyVal.isStr : PyVal → Bool
  | .vstr _ => true
  | _ => false

/-- Python's short-circuiting `a or b`: `a` when `a` is truthy,
otherwise `b`. -/
def pyOr (a b : PyVal) : PyVal :=
  if a.truthy then a else b

/-- `DEFAULT_BOTTLE_NAME` from the source. -/
def DEFAULT_BOTTLE_NAME : String := "SPSS"

/-- `DEFAULT_PROGRAM_NAME` from the source. -/
def DEFAULT_PROGRAM_NAME : String := "SPSS"

/-- `DEFAULT_FLATPAK_APP_ID` from the source. -/
def DEFAULT_FLATPAK_APP_ID : String := "com.usebottles.bottles"

/-- The resolver's output as it actually exists at runtime: the three
fields of the `Config` dataclass, holding whatever dynamic values the
`or`-chains in `get_config` produced (the dataclass does not enforce its
`str` annotations). -/
structure RawConfig where
  bottle_name : PyVal
  program_name : PyVal
  flatpak_app_id : PyVal
  deriving Repr

/-- The `Config` dataclass as declared: three string fields.  Used by
the translator and command builder, whose contracts assume validated
string configuration. -/
structure Config where
  bottle_name : String
  program_name : String
  flatpak_app_id : String
  deriving Repr

/-- State of the persisted config file at `CONFIG_FILE_PATH`: absent,
present but unreadable/malformed (with the exception text), or parsed
into a key-value mapping (`PyVal.none` for absent keys, matching
`dict.get`). -/
inductive ConfigFileState where
  | absent
  | malformed (errMsg : String)
  | parsed (kvs : String → PyVal)

/-- `CONFIG_FILE_PATH`: the fixed per-user config path
`Path.home() / .config / spss-wrapper / config.toml`, rendered with the
home directory abbreviated. -/
def CONFIG_FILE_PATH : String := "~/.config/spss-wrapper/config.toml"

/-- `load_config_file`: returns the warnings emitted on the diagnostic
stream and the mapping used as the file layer.  An absent file is an
empty source with no warning; a malformed/unreadable file emits one
warning and is an empty source; a parsed file yields its mapping. -/
def load_config_file : ConfigFileState → List String × (String → PyVal)
  | .absent => ([], fun _ => .none)
  | .malformed errMsg =>
      (["Warning: Failed to read config file " ++ CONFIG_FILE_PATH ++ ": " ++ errMsg],
       fun _ => .none)
  | .parsed kvs => ([], kvs)

/-- `get_config`: resolves each of the three fields through the
`override or env or file or default` chain, threading the config-file
warnings.  `env` models `os.environ.get` (with `PyVal.none` for an
unset variable). -/
def get_config (bottle_override program_override flatpak_app_id_override : PyVal)
    (env : String → PyVal) (fileState : ConfigFileState) :
    List String × RawConfig :=
  let lc := load_config_file fileState
  let file_config := lc.2
  let bottle_name :=
    pyOr bottle_override
      (pyOr (env "SPSS_BOTTLE_NAME")
        (pyOr (file_config "bottle_name") (.vstr DEFAULT_BOTTLE_NAME)))
  let program_name :=
    pyOr program_override
      (pyOr (env "SPSS_PROGRAM_NAME")
        (pyOr (file_config "program_name") (.vstr DEFAULT_PROGRAM_NAME)))
  let flatpak_app_id :=
    pyOr flatpak_app_id_override
      (pyOr (env "BOTTLES_FLATPAK_APP_ID")
        (pyOr (file_config "flatpak_app_id") (.vstr DEFAULT_FLATPAK_APP_ID)))
  (lc.1,
   { bottle_name := bottle_name
     program_name := program_name
     flatpak_app_id := flatpak_app_id })

/-- Modelled from the spec: "evaluate candidates in strict priority
order and take the first non-empty one", falling back to the built-in
default.  Used to compare the resolver against the spec's description. -/
def firstNonEmptyStr (candidates : List (Option String)) (default : String) : String :=
  match candidates with
  | [] => default
  | Option.none :: rest => firstNonEmptyStr rest default
  | Option.some s :: rest => if s = "" then firstNonEmptyStr rest default else s

/-- Embed an optional string (CLI override / environment variable /
string-valued file key) as a dynamic value. -/
def strOrNone : Option String → PyVal
  | Option.none => .none
  | Option.some s => .vstr s

/-- Outcome of a `subprocess.run(..., capture_output=True, text=True)`
attempt: the launcher executable was missing (`FileNotFoundError`, no
process created), or the process completed with an exit status and
captured output streams. -/
inductive SpawnOutcome where
  | launcherMissing
  | completed (returncode : Int) (stdout stderr : String)
  deriving Repr, DecidableEq

/-- The ambient host state the pipeline interacts with: `resolve` models
`Path(p).resolve()`, `pathExists` models `path.exists()`, and `spawn`
models running an external command vector and observing its outcome. -/
structure Host where
  resolve : String → String
  pathExists : String → Bool
  spawn : List String → SpawnOutcome

/-- The failure taxonomy of the wrapper: each constructor corresponds to
one `typer.Exit(1)` site reachable from the file-processing pipeline. -/
inductive WrapperError where
  | pathNotFound (path : String)
  | launcherMissing
  | translationFailed (path : String) (returncode : Int) (stdout stderr : String)
  | emptyTranslation (path : String)
  deriving Repr, DecidableEq

/-- The process exit code each failure site requests: every site raises
`typer.Exit(1)`. -/
def WrapperError.exitCode : WrapperError → Nat
  | .pathNotFound _ => 1
  | .launcherMissing => 1
  | .translationFailed _ _ _ _ => 1
  | .emptyTranslation _ => 1

/-- The diagnostic message `typer.echo`ed (to stderr) at each failure
site, as formatted by the source. -/
def renderError (c : Config) : WrapperError → String
  | .pathNotFound p => "Error: File does not exist: " ++ p
  | .launcherMissing =>
      "Error: 'flatpak' command not found.\n\nPlease ensure Flatpak is installed:\n  Ubuntu/Debian: sudo apt install flatpak\n  Fedora: sudo dnf install flatpak\n  Arch: sudo pacman -S flatpak"
  | .translationFailed p rc so se =>
      "Error: Failed to translate path '" ++ p ++ "' to Windows format.\n\nCommand failed with exit code " ++ toString rc ++ "\nstdout: " ++ so ++ "\nstderr: " ++ se ++ ("\n\nPossible causes:\n  - Bottle '" ++ c.bottle_name ++ "' does not exist\n  - Bottles/Flatpak is not properly installed\n  - The flatpak app ID may be incorrect\n\nTo check available bottles, run:\n  flatpak run --command=bottles-cli " ++ c.flatpak_app_id ++ " list bottles")
  | .emptyTranslation p =>
      "Error: winepath returned empty result for " ++ p ++ "\n\nThis may indicate:\n  - The bottle is not properly configured\n  - The path is not accessible from within the bottle\n\nTry running manually:\n  flatpak run --command=bottles-cli " ++ c.flatpak_app_id ++ " shell -b " ++ c.bottle_name ++ " -i \"winepath -w '" ++ p ++ "'\""

/-- Python's `str.strip()` with no arguments: remove whitespace from
both ends of the string. -/
def pyStrip (s : String) : String :=
  ⟨((s.data.dropWhile Char.isWhitespace).reverse.dropWhile Char.isWhitespace).reverse⟩

/-- `resolve_and_validate_path`: resolve to an absolute path, fail with
the `PathNotFound` condition when it does not exist on the host. -/
def resolve_and_validate_path (h : Host) (file_path : String) : Except WrapperError String :=
  let path := h.resolve file_path
  if h.pathExists path then .ok path else .error (.pathNotFound path)

/-- The `cmd` list built inside `translate_path_to_windows`: the
`flatpak` invocation running `winepath` inside the configured bottle on
the given absolute host path. -/
def winepath_cmd (config : Config) (linux_path : String) : List String :=
  ["flatpak", "run", "--command=bottles-cli", config.flatpak_app_id, "shell",
   "-b", config.bottle_name, "-i", "winepath -w '" ++ linux_path ++ "'"]

/-- `translate_path_to_windows`, given the outcome of the external
invocation: a missing launcher is `LauncherMissing`; a non-zero exit
status (raised as `CalledProcessError` by `check=True`) is
`TranslationFailed` carrying the captured exit code and both streams;
otherwise the trimmed stdout is the translated path unless it is empty,
which is the distinct `EmptyTranslation` condition. -/
def translate_path_to_windows (linux_path : String)
    (outcome : SpawnOutcome) : Except WrapperError String :=
  match outcome with
  | .launcherMissing => .error .launcherMissing
  | .completed returncode stdout stderr =>
      if returncode = 0 then
        let windows_path := pyStrip stdout
        if windows_path = "" then .error (.emptyTranslation linux_path)
        else .ok windows_path
      else .error (.translationFailed linux_path returncode stdout stderr)

/-- `build_spss_command`: the invocation vector launching the program in
the bottle, with the translated paths appended when any are present. -/
def build_spss_command (config : Config) (windows_paths : List String) : List String :=
  let cmd := ["flatpak", "run", "--command=bottles-cli", config.flatpak_app_id, "run",
              "-b", config.bottle_name, "-p", config.program_name]
  if windows_paths.isEmpty then cmd else cmd ++ windows_paths

/-- The file-processing loop of `main`: for each file in order, validate
existence, then spawn the translation helper; the first failure
short-circuits the rest.  Returns the list of external translation
invocations spawned (in order) and either the first fatal error or the
ordered translated paths. -/
def process_files (h : Host) (config : Config) :
    List String → List (List String) × Except WrapperError (List String)
  | [] => ([], .ok [])
  | f :: fs =>
    match resolve_and_validate_path h f with
    | .error e => ([], .error e)
    | .ok linux_path =>
      let cmd := winepath_cmd config linux_path
      match translate_path_to_windows linux_path (h.spawn cmd) with
      | .error e => ([cmd], .error e)
      | .ok wp =>
        let r := process_files h config fs
        (cmd :: r.1,
         match r.2 with
         | .error e => .error e
         | .ok ws => .ok (wp :: ws))

/-- The exit code of the pipeline up to (not including) the final
launch: `1` when a fatal error terminated processing, `0` otherwise
(success / dry run). -/
def pipeline_exit_code (h : Host) (config : Config) (files : List String) : Nat :=
  match (process_files h config files).2 with
  | .error e => e.exitCode
  | .ok _ => 0

/-- The final invocation vector of the pipeline, when path processing
succeeds. -/
def pipeline_cmd (h : Host) (config : Config) (files : List String) :
    Except WrapperError (List String) :=
  match (process_files h config files).2 with
  | .error e => .error e
  | .ok ws => .ok (build_spss_command config ws)

/-! ## Helper lemmas -/

/-- Truthiness of a Python `or` is the disjunction of truthiness. -/
theorem PyVal.truthy_pyOr (a b : PyVal) : (pyOr a b).truthy = (a.truthy || b.truthy) := by
  unfold pyOr
  cases h : a.truthy <;> simp [h]

/-- Every failure site requests exit code `1`. -/
theorem WrapperError.exitCode_eq_one (e : WrapperError) : e.exitCode = 1 := by
  cases e <;> rfl

/-- A `pyOr` whose right operand is a string literal matches one step of
the spec's first-non-empty selection. -/
theorem pyOr_strOrNone_vstr (a : Option String) (r : String) :
    pyOr (strOrNone a) (PyVal.vstr r) = PyVal.vstr (firstNonEmptyStr [a] r) := by
  rcases a with _ | s
  · rfl
  · by_cases hs : s = "" <;> simp [pyOr, strOrNone, firstNonEmptyStr, PyVal.truthy, hs]

/-- The first-non-empty selection over a cons factors through its tail. -/
theorem firstNonEmptyStr_cons (x : Option String) (rest : List (Option String)) (d : String) :
    firstNonEmptyStr (x :: rest) d = firstNonEmptyStr [x] (firstNonEmptyStr rest d) := by
  rcases x with _ | s
  · rfl
  · by_cases hs : s = "" <;> simp [firstNonEmptyStr, hs]

/-- The three-layer `or`-chain of `get_config` over string-or-absent
candidates equals the spec's first-non-empty selection. -/
theorem resolve_chain_eq (a b c : Option String) (d : String) :
    pyOr (strOrNone a) (pyOr (strOrNone b) (pyOr (strOrNone c) (PyVal.vstr d)))
      = PyVal.vstr (firstNonEmptyStr [a, b, c] d) := by
  rw [pyOr_strOrNone_vstr, pyOr_strOrNone_vstr, pyOr_strOrNone_vstr,
    firstNonEmptyStr_cons a [b, c], firstNonEmptyStr_cons b [c]]

/-! ## Claim theorems: configuration resolver -/

/-- **C2** — For each of the three configuration fields (bottle name,
program name, flatpak app id) independently, resolution returns the
first non-empty candidate in the order: explicit override argument,
designated environment variable, same-named key from the persisted
config file, built-in default; a non-empty value at a higher-priority
layer always wins regardless of any values present at lower layers. -/
theorem get_config_takes_first_nonempty_per_field
    (bo po fo : Option String) (env file : String → Option String) :
    ((get_config (strOrNone bo) (strOrNone po) (strOrNone fo)
        (fun k => strOrNone (env k)) (.parsed (fun k => strOrNone (file k)))).2.bottle_name
      = PyVal.vstr (firstNonEmptyStr [bo, env "SPSS_BOTTLE_NAME", file "bottle_name"]
          DEFAULT_BOTTLE_NAME))
    ∧ ((get_config (strOrNone bo) (strOrNone po) (strOrNone fo)
        (fun k => strOrNone (env k)) (.parsed (fun k => strOrNone (file k)))).2.program_name
      = PyVal.vstr (firstNonEmptyStr [po, env "SPSS_PROGRAM_NAME", file "program_name"]
          DEFAULT_PROGRAM_NAME))
    ∧ ((get_config (strOrNone bo) (strOrNone po) (strOrNone fo)
        (fun k => strOrNone (env k)) (.parsed (fun k => strOrNone (file k)))).2.flatpak_app_id
      = PyVal.vstr (firstNonEmptyStr [fo, env "BOTTLES_FLATPAK_APP_ID", file "flatpak_app_id"]
          DEFAULT_FLATPAK_APP_ID)) :=
  ⟨resolve_chain_eq bo (env "SPSS_BOTTLE_NAME") (file "bottle_name") DEFAULT_BOTTLE_NAME,
   resolve_chain_eq po (env "SPSS_PROGRAM_NAME") (file "program_name") DEFAULT_PROGRAM_NAME,
   resolve_chain_eq fo (env "BOTTLES_FLATPAK_APP_ID") (file "flatpak_app_id") DEFAULT_FLATPAK_APP_ID⟩

/-- **C7** — The claim states all three resolved fields are non-empty
strings.  The code contradicts its own `str` type annotations: with no
override and no environment value, a config file binding `bottle_name`
to the integer `42` (truthy) resolves the field to that integer, which
is not a string. -/
theorem config_field_not_string_at_int_file_value :
    (get_config .none .none .none (fun _ => .none)
        (.parsed (fun k => if k = "bottle_name" then .vint 42 else .none))).2.bottle_name
      = PyVal.vint 42
    ∧ PyVal.isStr ((get_config .none .none .none (fun _ => .none)
        (.parsed (fun k => if k = "bottle_name" then .vint 42 else .none))).2.bottle_name)
      = false
    ∧ ((get_config .none .none .none (fun _ => .none)
        (.parsed (fun k => if k = "bottle_name" then .vint 42 else .none))).2.bottle_name).truthy
      = true :=
  ⟨rfl, rfl, rfl⟩

/-- **C8** — For every filesystem state in which the persisted config
file is absent or malformed/unreadable, resolution never fails: an
absent file is treated silently as an empty source (no warning), a
malformed file produces exactly one non-fatal warning and is treated as
an empty source, the resolved configuration is in both cases the one
resolved from an empty file layer, and all three of its fields are
truthy (a valid configuration). -/
theorem bad_config_file_never_fatal
    (ov1 ov2 ov3 : PyVal) (env : String → PyVal) (msg : String) :
    (get_config ov1 ov2 ov3 env .absent).1 = []
    ∧ (get_config ov1 ov2 ov3 env (.malformed msg)).1.length = 1
    ∧ (get_config ov1 ov2 ov3 env (.malformed msg)).2 = (get_config ov1 ov2 ov3 env .absent).2
    ∧ (get_config ov1 ov2 ov3 env .absent).2
        = (get_config ov1 ov2 ov3 env (.parsed (fun _ => PyVal.none))).2
    ∧ (get_config ov1 ov2 ov3 env .absent).2.bottle_name.truthy = true
    ∧ (get_config ov1 ov2 ov3 env .absent).2.program_name.truthy = true
    ∧ (get_config ov1 ov2 ov3 env .absent).2.flatpak_app_id.truthy = true := by
  refine ⟨rfl, rfl, rfl, rfl, ?_, ?_, ?_⟩ <;>
    (simp only [get_config, load_config_file, PyVal.truthy_pyOr]
     simp [PyVal.truthy, DEFAULT_BOTTLE_NAME, DEFAULT_PROGRAM_NAME, DEFAULT_FLATPAK_APP_ID])

/-- **C10** — Configuration resolution performs no type check on values
read from the persisted config file: for each recognized key
independently, when the override and the environment variable are falsy
and the parsed file binds the key to a truthy value of any modelled TOML
type, the resolved field is that file value verbatim, string or not. -/
theorem file_layer_value_used_verbatim
    (ov1 ov2 ov3 : PyVal) (env kvs : String → PyVal) :
    (ov1.truthy = false → (env "SPSS_BOTTLE_NAME").truthy = false →
      (kvs "bottle_name").truthy = true →
      (get_config ov1 ov2 ov3 env (.parsed kvs)).2.bottle_name = kvs "bottle_name")
    ∧ (ov2.truthy = false → (env "SPSS_PROGRAM_NAME").truthy = false →
      (kvs "program_name").truthy = true →
      (get_config ov1 ov2 ov3 env (.parsed kvs)).2.program_name = kvs "program_name")
    ∧ (ov3.truthy = false → (env "BOTTLES_FLATPAK_APP_ID").truthy = false →
      (kvs "flatpak_app_id").truthy = true →
      (get_config ov1 ov2 ov3 env (.parsed kvs)).2.flatpak_app_id = kvs "flatpak_app_id") := by
  refine ⟨fun h1 h2 h3 => ?_, fun h1 h2 h3 => ?_, fun h1 h2 h3 => ?_⟩ <;>
    simp [get_config, load_config_file, pyOr, h1, h2, h3]

/-- **C10** (witness) — at a concrete input: a config file binding
`bottle_name` to the integer `42`, `program_name` to `true` and
`flatpak_app_id` to a non-empty array, with no overrides and no
environment values, resolves all three fields to those non-string
values verbatim. -/
theorem file_layer_value_used_verbatim_witness :
    (get_config .none .none .none (fun _ => .none)
        (.parsed (fun k => if k = "bottle_name" then .vint 42
          else if k = "program_name" then .vbool true
          else .varr [.vstr "x"]))).2.bottle_name = PyVal.vint 42
    ∧ (get_config .none .none .none (fun _ => .none)
        (.parsed (fun k => if k = "bottle_name" then .vint 42
          else if k = "program_name" then .vbool true
          else .varr [.vstr "x"]))).2.program_name = PyVal.vbool true
    ∧ (get_config .none .none .none (fun _ => .none)
        (.parsed (fun k => if k = "bottle_name" then .vint 42
          else if k = "program_name" then .vbool true
          else .varr [.vstr "x"]))).2.flatpak_app_id = PyVal.varr [.vstr "x"] :=
  ⟨(file_layer_value_used_verbatim .none .none .none (fun _ => .none)
      (fun k => if k = "bottle_name" then .vint 42
        else if k = "program_name" then .vbool true
        else .varr [.vstr "x"])).1 rfl rfl rfl,
   (file_layer_value_used_verbatim .none .none .none (fun _ => .none)
      (fun k => if k = "bottle_name" then .vint 42
        else if k = "program_name" then .vbool true
        else .varr [.vstr "x"])).2.1 rfl rfl rfl,
   (file_layer_value_used_verbatim .none .none .none (fun _ => .none)
      (fun k => if k = "bottle_name" then .vint 42
        else if k = "program_name" then .vbool true
        else .varr [.vstr "x"])).2.2 rfl rfl rfl⟩

/-! ## Diagnostic-message distinctness -/

/-- Appending on the right preserves a successful indexed lookup. -/
theorem getElem?_append_some {l₁ : List Char} (l₂ : List Char) {n : Nat} {a : Char}
    (h : l₁[n]? = some a) : (l₁ ++ l₂)[n]? = some a := by
  rw [List.getElem?_append_left ((List.getElem?_eq_some.mp h).1)]
  exact h

/-- The `EmptyTranslation` diagnostic has `w` (of `winepath`) at index 7. -/
theorem renderError_empty_get7 (c : Config) (p : String) :
    (renderError c (.emptyTranslation p)).data[7]? = some 'w' := by
  simp only [renderError, String.data_append]
  repeat apply getElem?_append_some
  decide

/-- The `TranslationFailed` diagnostic has `F` (of `Failed`) at index 7. -/
theorem renderError_failed_get7 (c : Config) (p : String) (rc : Int) (so se : String) :
    (renderError c (.translationFailed p rc so se)).data[7]? = some 'F' := by
  simp only [renderError, String.data_append]
  repeat apply getElem?_append_some
  decide

/-- The `EmptyTranslation` diagnostic never coincides with any
`TranslationFailed` diagnostic. -/
theorem renderError_empty_ne_failed (c : Config) (p q : String) (rc : Int) (so se : String) :
    renderError c (.emptyTranslation p) ≠ renderError c (.translationFailed q rc so se) := by
  intro heq
  have h1 := renderError_empty_get7 c p
  have h2 := renderError_failed_get7 c q rc so se
  rw [heq, h2] at h1
  exact absurd h1 (by decide)

/-! ## Claim theorems: translator and builder -/

/-- **C5** — A helper invocation that exits with status zero but whose
trimmed standard output is empty is the `EmptyTranslation` condition:
the translator fails with it, its exit code is 1, and its diagnostic
message differs from every `TranslationFailed` (non-zero-exit)
diagnostic. -/
theorem empty_translation_distinct_condition (c : Config) (lp stdout stderr : String)
    (hout : pyStrip stdout = "") :
    translate_path_to_windows lp (.completed 0 stdout stderr)
        = .error (.emptyTranslation lp)
    ∧ WrapperError.exitCode (.emptyTranslation lp) = 1
    ∧ ∀ (q : String) (rc : Int) (so se : String),
        renderError c (.emptyTranslation lp) ≠ renderError c (.translationFailed q rc so se) := by
  refine ⟨?_, rfl, fun q rc so se => renderError_empty_ne_failed c lp q rc so se⟩
  simp [translate_path_to_windows, hout]

/-- **C5** (witness) — concrete instance: the helper exits 0 with
whitespace-only output `"   \n"`. -/
theorem empty_translation_distinct_condition_witness :
    pyStrip "   \n" = ""
    ∧ (translate_path_to_windows "/home/user/data.sav" (.completed 0 "   \n" "")
          = .error (.emptyTranslation "/home/user/data.sav")
      ∧ WrapperError.exitCode (.emptyTranslation "/home/user/data.sav") = 1
      ∧ ∀ (q : String) (rc : Int) (so se : String),
          renderError ⟨"SPSS", "SPSS", "com.usebottles.bottles"⟩
              (.emptyTranslation "/home/user/data.sav")
            ≠ renderError ⟨"SPSS", "SPSS", "com.usebottles.bottles"⟩
              (.translationFailed q rc so se)) :=
  ⟨by decide,
   empty_translation_distinct_condition ⟨"SPSS", "SPSS", "com.usebottles.bottles"⟩
     "/home/user/data.sav" "   \n" "" (by decide)⟩

/-- **C3** — For every Configuration and ordered list of translated path
strings, the built invocation vector is exactly the launcher token, the
fixed sub-command tokens, the container-app identifier, the `run`
directive, the bottle name (after its fixed `-b` flag token), the
program name (after its fixed `-p` flag token), followed by the paths
verbatim in order; with no paths the vector ends at the program-name
token. -/
theorem build_spss_command_exact_vector (c : Config) (ps : List String) :
    build_spss_command c ps
        = ["flatpak", "run", "--command=bottles-cli", c.flatpak_app_id, "run",
           "-b", c.bottle_name, "-p", c.program_name] ++ ps
    ∧ (build_spss_command c []).getLast? = some c.program_name := by
  constructor
  · cases ps <;> simp [build_spss_command]
  · rfl

/-! ## Claim theorems: pipeline -/

/-- When some file at index `k` fails the existence check, the pipeline
stops in an error, and external translations were spawned only for files
strictly before index `k`. -/
theorem process_files_error_before_missing (h : Host) (c : Config) :
    ∀ (files : List String) (k : Nat) (hk : k < files.length),
      h.pathExists (h.resolve (files.get ⟨k, hk⟩)) = false →
      (∃ e, (process_files h c files).2 = Except.error e)
      ∧ (process_files h c files).1.length ≤ k := by
  intro files
  induction files with
  | nil => intro k hk hmiss; exact absurd hk (by simp)
  | cons f fs ih =>
    intro k hk hmiss
    cases k with
    | zero =>
      have hex : h.pathExists (h.resolve f) = false := hmiss
      refine ⟨⟨.pathNotFound (h.resolve f), ?_⟩, ?_⟩ <;>
        simp [process_files, resolve_and_validate_path, hex]
    | succ k =>
      have hk' : k < fs.length := Nat.lt_of_succ_lt_succ hk
      have hmiss' : h.pathExists (h.resolve (fs.get ⟨k, hk'⟩)) = false := hmiss
      rcases hres : resolve_and_validate_path h f with e | lp
      · refine ⟨⟨e, ?_⟩, ?_⟩ <;> simp [process_files, hres]
      · rcases htr : translate_path_to_windows lp (h.spawn (winepath_cmd c lp)) with e | wp
        · refine ⟨⟨e, ?_⟩, ?_⟩ <;> simp [process_files, hres, htr]
        · obtain ⟨⟨e, he⟩, hlen⟩ := ih k hk' hmiss'
          constructor
          · exact ⟨e, by simp [process_files, hres, htr, he]⟩
          · simp only [process_files, hres, htr, List.length_cons]
            omega

/-- **C1** (amended) — If the input file at position `k` does not exist
on the host, the pipeline terminates with exit code 1, and no external
translation is spawned for that path or any later path (at most the `k`
earlier, existing paths were translated before termination). -/
theorem missing_path_exits_one_before_its_translation
    (h : Host) (c : Config) (files : List String) (k : Nat)
    (hk : k < files.length)
    (hmiss : h.pathExists (h.resolve (files.get ⟨k, hk⟩)) = false) :
    pipeline_exit_code h c files = 1
    ∧ (process_files h c files).1.length ≤ k := by
  obtain ⟨⟨e, he⟩, hlen⟩ := process_files_error_before_missing h c files k hk hmiss
  refine ⟨?_, hlen⟩
  unfold pipeline_exit_code
  rw [he]
  exact WrapperError.exitCode_eq_one e

/-- **C1** (witness) — concrete instance: `/missing` at position 1 of
the list does not exist; the pipeline exits 1 having spawned at most one
translation. -/
theorem missing_path_exits_one_before_its_translation_witness :
    (1 < (["/a", "/missing"] : List String).length)
    ∧ (Host.mk id (fun p => p == "/a")
        (fun _ => SpawnOutcome.completed 0 "C:\\a\n" "")).pathExists
        ((Host.mk id (fun p => p == "/a")
          (fun _ => SpawnOutcome.completed 0 "C:\\a\n" "")).resolve
          ((["/a", "/missing"] : List String).get ⟨1, by decide⟩)) = false
    ∧ (pipeline_exit_code
        (Host.mk id (fun p => p == "/a")
          (fun _ => SpawnOutcome.completed 0 "C:\\a\n" ""))
        ⟨"SPSS", "SPSS", "com.usebottles.bottles"⟩ ["/a", "/missing"] = 1
      ∧ (process_files
          (Host.mk id (fun p => p == "/a")
            (fun _ => SpawnOutcome.completed 0 "C:\\a\n" ""))
          ⟨"SPSS", "SPSS", "com.usebottles.bottles"⟩ ["/a", "/missing"]).1.length ≤ 1) :=
  ⟨by decide, by decide,
   missing_path_exits_one_before_its_translation
     (Host.mk id (fun p => p == "/a") (fun _ => SpawnOutcome.completed 0 "C:\\a\n" ""))
     ⟨"SPSS", "SPSS", "com.usebottles.bottles"⟩ ["/a", "/missing"] 1 (by decide) (by decide)⟩

/-- **C1** (counterexample) — the claim as stated is false: with input
list `["/a", "/missing"]` where `/a` exists and `/missing` does not, the
pipeline terminates with exit code 1, yet one external translation
process (for `/a`) was spawned before the existence check of
`/missing`, so it does not terminate before any external process is
spawned. -/
theorem translation_spawned_before_missing_path_check :
    pipeline_exit_code
        (Host.mk id (fun p => p == "/a")
          (fun _ => SpawnOutcome.completed 0 "C:\\a\n" ""))
        ⟨"SPSS", "SPSS", "com.usebottles.bottles"⟩ ["/a", "/missing"] = 1
    ∧ (process_files
        (Host.mk id (fun p => p == "/a")
          (fun _ => SpawnOutcome.completed 0 "C:\\a\n" ""))
        ⟨"SPSS", "SPSS", "com.usebottles.bottles"⟩ ["/a", "/missing"]).1.length = 1 :=
  ⟨rfl, rfl⟩

/-- **C9** — For every validated host path, the translator spawns
exactly the container-sandbox invocation that runs the path-translation
helper inside the configured bottle, passing the absolute host path as
the helper's argument. -/
theorem translator_invokes_winepath_in_bottle
    (h : Host) (c : Config) (f : String) (rest : List String)
    (hex : h.pathExists (h.resolve f) = true) :
    (process_files h c (f :: rest)).1.head? = some (winepath_cmd c (h.resolve f))
    ∧ winepath_cmd c (h.resolve f)
        = ["flatpak", "run", "--command=bottles-cli", c.flatpak_app_id, "shell",
           "-b", c.bottle_name, "-i", "winepath -w '" ++ h.resolve f ++ "'"] := by
  refine ⟨?_, rfl⟩
  have hres : resolve_and_validate_path h f = .ok (h.resolve f) := by
    simp [resolve_and_validate_path, hex]
  rcases htr : translate_path_to_windows (h.resolve f)
      (h.spawn (winepath_cmd c (h.resolve f))) with e | wp <;>
    simp [process_files, hres, htr]

/-- **C9** (witness) — concrete instance with bottle `MyBottle` and app
id `org.example.Bottles`. -/
theorem translator_invokes_winepath_in_bottle_witness :
    (Host.mk id (fun p => p == "/data/file.sav")
        (fun _ => SpawnOutcome.completed 0 "Z:\\data\\file.sav\n" "")).pathExists
        ((Host.mk id (fun p => p == "/data/file.sav")
          (fun _ => SpawnOutcome.completed 0 "Z:\\data\\file.sav\n" "")).resolve
          "/data/file.sav") = true
    ∧ ((process_files
          (Host.mk id (fun p => p == "/data/file.sav")
            (fun _ => SpawnOutcome.completed 0 "Z:\\data\\file.sav\n" ""))
          ⟨"MyBottle", "SPSS", "org.example.Bottles"⟩ ["/data/file.sav"]).1.head?
        = some (winepath_cmd ⟨"MyBottle", "SPSS", "org.example.Bottles"⟩ "/data/file.sav")
      ∧ winepath_cmd ⟨"MyBottle", "SPSS", "org.example.Bottles"⟩ "/data/file.sav"
        = ["flatpak", "run", "--command=bottles-cli", "org.example.Bottles", "shell",
           "-b", "MyBottle", "-i", "winepath -w '" ++ "/data/file.sav" ++ "'"]) :=
  ⟨by decide,
   translator_invokes_winepath_in_bottle
     (Host.mk id (fun p => p == "/data/file.sav")
       (fun _ => SpawnOutcome.completed 0 "Z:\\data\\file.sav\n" ""))
     ⟨"MyBottle", "SPSS", "org.example.Bottles"⟩ "/data/file.sav" [] (by decide)⟩

/-- **C4** — A helper invocation that succeeds (exit 0) with non-empty
trimmed output translates to exactly that trimmed stdout; for a single
valid host path the pipeline's built invocation vector ends in exactly
that trimmed string. -/
theorem translate_success_trimmed_stdout
    (h : Host) (c : Config) (f stdout stderr : String)
    (hex : h.pathExists (h.resolve f) = true)
    (hsp : h.spawn (winepath_cmd c (h.resolve f)) = .completed 0 stdout stderr)
    (hne : pyStrip stdout ≠ "") :
    translate_path_to_windows (h.resolve f) (.completed 0 stdout stderr)
        = .ok (pyStrip stdout)
    ∧ pipeline_cmd h c [f] = .ok (build_spss_command c [pyStrip stdout])
    ∧ (build_spss_command c [pyStrip stdout]).getLast? = some (pyStrip stdout) := by
  have htr : translate_path_to_windows (h.resolve f) (.completed 0 stdout stderr)
      = .ok (pyStrip stdout) := by
    simp [translate_path_to_windows, hne]
  have hres : resolve_and_validate_path h f = .ok (h.resolve f) := by
    simp [resolve_and_validate_path, hex]
  refine ⟨htr, ?_, rfl⟩
  simp [pipeline_cmd, process_files, hres, hsp, htr]

/-- **C4** (witness) — concrete instance: the helper prints
`C:\Users\test\doc.sav` followed by a newline; the final vector token is
the trimmed string. -/
theorem translate_success_trimmed_stdout_witness :
    (Host.mk id (fun p => p == "/home/test/doc.sav")
        (fun _ => SpawnOutcome.completed 0 "C:\\Users\\test\\doc.sav\n" "")).pathExists
        ((Host.mk id (fun p => p == "/home/test/doc.sav")
          (fun _ => SpawnOutcome.completed 0 "C:\\Users\\test\\doc.sav\n" "")).resolve
          "/home/test/doc.sav") = true
    ∧ pyStrip "C:\\Users\\test\\doc.sav\n" ≠ ""
    ∧ (translate_path_to_windows
          ((Host.mk id (fun p => p == "/home/test/doc.sav")
            (fun _ => SpawnOutcome.completed 0 "C:\\Users\\test\\doc.sav\n" "")).resolve
            "/home/test/doc.sav")
          (.completed 0 "C:\\Users\\test\\doc.sav\n" "")
          = .ok (pyStrip "C:\\Users\\test\\doc.sav\n")
      ∧ pipeline_cmd
          (Host.mk id (fun p => p == "/home/test/doc.sav")
            (fun _ => SpawnOutcome.completed 0 "C:\\Users\\test\\doc.sav\n" ""))
          ⟨"SPSS", "SPSS", "com.usebottles.bottles"⟩ ["/home/test/doc.sav"]
          = .ok (build_spss_command ⟨"SPSS", "SPSS", "com.usebottles.bottles"⟩
              [pyStrip "C:\\Users\\test\\doc.sav\n"])
      ∧ (build_spss_command ⟨"SPSS", "SPSS", "com.usebottles.bottles"⟩
            [pyStrip "C:\\Users\\test\\doc.sav\n"]).getLast?
          = some (pyStrip "C:\\Users\\test\\doc.sav\n")) :=
  ⟨by decide, by decide,
   translate_success_trimmed_stdout
     (Host.mk id (fun p => p == "/home/test/doc.sav")
       (fun _ => SpawnOutcome.completed 0 "C:\\Users\\test\\doc.sav\n" ""))
     ⟨"SPSS", "SPSS", "com.usebottles.bottles"⟩
     "/home/test/doc.sav" "C:\\Users\\test\\doc.sav\n" "" (by decide) rfl (by decide)⟩

/-- **C6** — A helper invocation completing with non-zero exit status
terminates the pipeline with exit code 1, the diagnostic message
contains the captured exit code, captured stdout and captured stderr,
and no retry or further translation happens: the spawn trace of the
whole remaining pipeline is exactly the one failed invocation. -/
theorem nonzero_exit_terminal_with_full_diagnostics
    (h : Host) (c : Config) (f : String) (rest : List String)
    (rc : Int) (stdout stderr : String)
    (hex : h.pathExists (h.resolve f) = true)
    (hsp : h.spawn (winepath_cmd c (h.resolve f)) = .completed rc stdout stderr)
    (hrc : rc ≠ 0) :
    (process_files h c (f :: rest)).2
        = .error (.translationFailed (h.resolve f) rc stdout stderr)
    ∧ pipeline_exit_code h c (f :: rest) = 1
    ∧ (process_files h c (f :: rest)).1 = [winepath_cmd c (h.resolve f)]
    ∧ ∃ s1 s2 s3 s4,
        renderError c (.translationFailed (h.resolve f) rc stdout stderr)
          = s1 ++ toString rc ++ s2 ++ stdout ++ s3 ++ stderr ++ s4 := by
  have hres : resolve_and_validate_path h f = .ok (h.resolve f) := by
    simp [resolve_and_validate_path, hex]
  have htr : translate_path_to_windows (h.resolve f) (h.spawn (winepath_cmd c (h.resolve f)))
      = .error (.translationFailed (h.resolve f) rc stdout stderr) := by
    rw [hsp]
    simp [translate_path_to_windows, hrc]
  refine ⟨?_, ?_, ?_, ?_⟩
  · simp [process_files, hres, htr]
  · unfold pipeline_exit_code
    simp [process_files, hres, htr, WrapperError.exitCode]
  · simp [process_files, hres, htr]
  · exact ⟨"Error: Failed to translate path '" ++ h.resolve f
        ++ "' to Windows format.\n\nCommand failed with exit code ",
      "\nstdout: ", "\nstderr: ",
      "\n\nPossible causes:\n  - Bottle '" ++ c.bottle_name
        ++ "' does not exist\n  - Bottles/Flatpak is not properly installed\n  - The flatpak app ID may be incorrect\n\nTo check available bottles, run:\n  flatpak run --command=bottles-cli "
        ++ c.flatpak_app_id ++ " list bottles", rfl⟩

/-- **C6** (witness) — concrete instance: the helper exits with status 1
printing `no such bottle` on stderr. -/
theorem nonzero_exit_terminal_with_full_diagnostics_witness :
    (Host.mk id (fun p => p == "/x.sav")
        (fun _ => SpawnOutcome.completed 1 "partial" "no such bottle")).pathExists
        ((Host.mk id (fun p => p == "/x.sav")
          (fun _ => SpawnOutcome.completed 1 "partial" "no such bottle")).resolve
          "/x.sav") = true
    ∧ ((1 : Int) ≠ 0)
    ∧ ((process_files
          (Host.mk id (fun p => p == "/x.sav")
            (fun _ => SpawnOutcome.completed 1 "partial" "no such bottle"))
          ⟨"SPSS", "SPSS", "com.usebottles.bottles"⟩ ["/x.sav", "/y.sav"]).2
        = .error (.translationFailed
            ((Host.mk id (fun p => p == "/x.sav")
              (fun _ => SpawnOutcome.completed 1 "partial" "no such bottle")).resolve "/x.sav")
            1 "partial" "no such bottle")
      ∧ pipeline_exit_code
          (Host.mk id (fun p => p == "/x.sav")
            (fun _ => SpawnOutcome.completed 1 "partial" "no such bottle"))
          ⟨"SPSS", "SPSS", "com.usebottles.bottles"⟩ ["/x.sav", "/y.sav"] = 1
      ∧ (process_files
          (Host.mk id (fun p => p == "/x.sav")
            (fun _ => SpawnOutcome.completed 1 "partial" "no such bottle"))
          ⟨"SPSS", "SPSS", "com.usebottles.bottles"⟩ ["/x.sav", "/y.sav"]).1
        = [winepath_cmd ⟨"SPSS", "SPSS", "com.usebottles.bottles"⟩
            ((Host.mk id (fun p => p == "/x.sav")
              (fun _ => SpawnOutcome.completed 1 "partial" "no such bottle")).resolve "/x.sav")]
      ∧ ∃ s1 s2 s3 s4,
          renderError ⟨"SPSS", "SPSS", "com.usebottles.bottles"⟩
              (.translationFailed
                ((Host.mk id (fun p => p == "/x.sav")
                  (fun _ => SpawnOutcome.completed 1 "partial" "no such bottle")).resolve
                  "/x.sav")
                1 "partial" "no such bottle")
            = s1 ++ toString (1 : Int) ++ s2 ++ "partial" ++ s3 ++ "no such bottle" ++ s4) :=
  ⟨by decide, by decide,
   nonzero_exit_terminal_with_full_diagnostics
     (Host.mk id (fun p => p == "/x.sav")
       (fun _ => SpawnOutcome.completed 1 "partial" "no such bottle"))
     ⟨"SPSS", "SPSS", "com.usebottles.bottles"⟩ "/x.sav" ["/y.sav"]
     1 "partial" "no such bottle" (by decide) rfl (by decide)⟩
